import Mathlib

/-!
Shallow embedding of the Dimes CAD server's sketch-to-solid modeling core
(`src/server/src/geometry/{sketch.cpp, sketch_plane.cpp, extrude_feature.cpp,
occt_engine.cpp}`), together with theorems settling the frozen claims about
its specification.  C++ `double` arithmetic is modelled by `ℝ`; the OCCT
geometry kernel (edge/wire/face construction, prism sweeps, shape analysis)
is an external collaborator and is modelled as an abstract oracle.
-/

namespace Dimes

/-- 2D point/vector (models `gp_Pnt2d` / `gp_Vec2d` components). -/
@[ext]
structure Pt2 where
  x : ℝ
  y : ℝ

/-- 3D vector (models `Geometry::Vector3d` / `gp_Vec` / `gp_Pnt` components). -/
@[ext]
structure Vec3 where
  x : ℝ
  y : ℝ
  z : ℝ

namespace Pt2

def add (a b : Pt2) : Pt2 := ⟨a.x + b.x, a.y + b.y⟩

def sub (a b : Pt2) : Pt2 := ⟨a.x - b.x, a.y - b.y⟩

def smul (t : ℝ) (a : Pt2) : Pt2 := ⟨t * a.x, t * a.y⟩

/-- Dot product of 2D vectors (models `gp_Vec2d::Dot`). -/
def dot (a b : Pt2) : ℝ := a.x * b.x + a.y * b.y

/-- 2D cross product / determinant (models `d1.X()*d2.Y() - d1.Y()*d2.X()`). -/
def cross (a b : Pt2) : ℝ := a.x * b.y - a.y * b.x

/-- Magnitude (models `gp_Vec2d::Magnitude`). -/
noncomputable def norm (a : Pt2) : ℝ := Real.sqrt (dot a a)

/-- Normalization (models `gp_Vec2d::Normalize`, division by the magnitude). -/
noncomputable def normalize (a : Pt2) : Pt2 := smul (norm a)⁻¹ a

end Pt2

/-- Perpendicular distance from a point to the infinite line through `a` and
`b`: the magnitude of the 2D cross product of `p - a` with `b - a`, divided by
the length of `b - a`. -/
noncomputable def perpDistToLine (p a b : Pt2) : ℝ :=
  |Pt2.cross (Pt2.sub p a) (Pt2.sub b a)| / Pt2.norm (Pt2.sub b a)

namespace Vec3

def add (a b : Vec3) : Vec3 := ⟨a.x + b.x, a.y + b.y, a.z + b.z⟩

/-- Scaling (models `gp_Vec::Scale` / `Vector3d::operator*`). -/
def smul (t : ℝ) (a : Vec3) : Vec3 := ⟨t * a.x, t * a.y, t * a.z⟩

/-- Reversal (models `gp_Vec::Reverse`). -/
def neg (a : Vec3) : Vec3 := ⟨-a.x, -a.y, -a.z⟩

def sub (a b : Vec3) : Vec3 := ⟨a.x - b.x, a.y - b.y, a.z - b.z⟩

/-- Dot product (models `gp_Vec::Dot` / `Vector3d::dot`). -/
def dot (a b : Vec3) : ℝ := a.x * b.x + a.y * b.y + a.z * b.z

/-- Cross product (models `gp_Dir::Crossed` / `Vector3d::cross`). -/
def cross (a b : Vec3) : Vec3 :=
  ⟨a.y * b.z - a.z * b.y, a.z * b.x - a.x * b.z, a.x * b.y - a.y * b.x⟩

/-- Magnitude (models `gp_Vec::Magnitude` / `Vector3d::magnitude`). -/
noncomputable def norm (a : Vec3) : ℝ := Real.sqrt (dot a a)

end Vec3

/-- The tag of a sketch element (`SketchElement::Type` in `sketch.h`). -/
inductive ElementType
  | LINE
  | CIRCLE
  | ARC
  | RECTANGLE
  | FILLET
deriving DecidableEq

/-- One sketch element (`struct SketchElement` in `sketch.h`).  Points default
to the origin as `gp_Pnt2d`'s default constructor does. -/
structure SketchElement where
  type : ElementType
  id : String
  start_point : Pt2 := ⟨0, 0⟩
  end_point : Pt2 := ⟨0, 0⟩
  center_point : Pt2 := ⟨0, 0⟩
  parameters : List ℝ := []
  referenced_elements : List String := []

/-- A sketch: the shared plane is reduced to the data the modeled operations
read from it (its unit normal), plus the ordered element sequence
(`Sketch::elements_`). -/
structure Sketch where
  planeNormal : Vec3
  elements : List SketchElement

namespace Sketch

/-- `Sketch::addLine`: id `"Line_" + (elements_.size()+1)`, then `push_back`. -/
def addLine (s : Sketch) (start stop : Pt2) : Sketch × String :=
  let line_id := "Line_" ++ toString (s.elements.length + 1)
  ({ s with elements := s.elements ++
      [{ type := .LINE, id := line_id, start_point := start, end_point := stop }] },
   line_id)

/-- `Sketch::addCircle`. -/
def addCircle (s : Sketch) (center : Pt2) (radius : ℝ) : Sketch × String :=
  let circle_id := "Circle_" ++ toString (s.elements.length + 1)
  ({ s with elements := s.elements ++
      [{ type := .CIRCLE, id := circle_id, center_point := center,
         parameters := [radius] }] },
   circle_id)

/-- `Sketch::addRectangle` (corner in `start_point`, `parameters = [width, height]`). -/
def addRectangle (s : Sketch) (corner : Pt2) (width height : ℝ) : Sketch × String :=
  let rectangle_id := "Rectangle_" ++ toString (s.elements.length + 1)
  ({ s with elements := s.elements ++
      [{ type := .RECTANGLE, id := rectangle_id, start_point := corner,
         parameters := [width, height] }] },
   rectangle_id)

/-- `Sketch::addArc`. -/
def addArc (s : Sketch) (center start stop : Pt2) (radius : ℝ) : Sketch × String :=
  let arc_id := "Arc_" ++ toString (s.elements.length + 1)
  ({ s with elements := s.elements ++
      [{ type := .ARC, id := arc_id, center_point := center, start_point := start,
         end_point := stop, parameters := [radius] }] },
   arc_id)

/-- `Sketch::removeElement`: `remove_if`/`erase` keeps, in order, every element
whose id differs from the argument. -/
def removeElement (s : Sketch) (element_id : String) : Sketch :=
  { s with elements := s.elements.filter (fun e => e.id ≠ element_id) }

/-- The element-lookup loop used by `addFillet`, `getElementIntersection` and
`isElementsConnected`: it scans the whole vector and keeps the LAST element
whose id matches (the C++ loop keeps overwriting the pointer). -/
def findElem (s : Sketch) (eid : String) : Option SketchElement :=
  s.elements.foldl (fun acc e => if e.id = eid then some e else acc) none

end Sketch

/-- The 2×2 line-line solve of `Sketch::getElementIntersection`:
`t1 = (dx*d2.y - dy*d2.x) / det` and the intersection is `p1 + t1*d1`. -/
noncomputable def lineIntersectionPoint (p1 d1 p2 d2 : Pt2) : Pt2 :=
  let det := Pt2.cross d1 d2
  let t1 := ((p2.x - p1.x) * d2.y - (p2.y - p1.y) * d2.x) / det
  ⟨p1.x + t1 * d1.x, p1.y + t1 * d1.y⟩

/-- `Sketch::getElementIntersection`: looks both elements up, solves the 2D
line-line system for two Line elements, reports no intersection when the
determinant's magnitude is below `1e-10` (parallel) and for every element
type combination other than Line-Line. -/
noncomputable def getElementIntersection (s : Sketch) (e1 e2 : String) : Option Pt2 :=
  match s.findElem e1, s.findElem e2 with
  | some E1, some E2 =>
      if E1.type = .LINE ∧ E2.type = .LINE then
        let d1 := Pt2.sub E1.end_point E1.start_point
        let d2 := Pt2.sub E2.end_point E2.start_point
        if |Pt2.cross d1 d2| < 1e-10 then none
        else some (lineIntersectionPoint E1.start_point d1 E2.start_point d2)
      else none
  | _, _ => none

/-- `offset = radius / sin(abs(angle) / 2.0)` in `Sketch::addFillet`, where
`angle = dir1.Angle(dir2)` on the normalized directions.  `gp_Vec2d::Angle`
is `atan2(cross, dot)`, whose absolute value on unit vectors is
`Real.arccos (dot u1 u2)`. -/
noncomputable def filletOffset (u1 u2 : Pt2) (radius : ℝ) : ℝ :=
  radius / Real.sin (Real.arccos (Pt2.dot u1 u2) / 2)

/-- `fillet_center = intersection + bisector * offset`, with
`bisector = normalize(dir1 + dir2)`. -/
noncomputable def filletCenter (inter u1 u2 : Pt2) (radius : ℝ) : Pt2 :=
  Pt2.add inter (Pt2.smul (filletOffset u1 u2 radius) (Pt2.normalize (Pt2.add u1 u2)))

/-- The per-line tangent-point computation of `Sketch::addFillet`: project the
fillet center `c` onto the line through `p` with unit direction `u`, then step
from the center towards the projection foot by `radius` along the normalized
center-minus-foot direction. -/
noncomputable def tangentPoint (c p u : Pt2) (radius : ℝ) : Pt2 :=
  let dt := Pt2.dot (Pt2.sub c p) u
  let projection := Pt2.add p (Pt2.smul dt u)
  let to_fillet := Pt2.normalize (Pt2.sub c projection)
  Pt2.sub c (Pt2.smul radius to_fillet)

/-- The fillet center/tangent computation of `Sketch::addFillet` for two Line
elements `(p1,q1)` and `(p2,q2)`, given the already computed intersection
point: returns `(center, tangent1, tangent2)`. -/
noncomputable def filletGeometry (p1 q1 p2 q2 inter : Pt2) (radius : ℝ) :
    Pt2 × Pt2 × Pt2 :=
  let dir1 := Pt2.normalize (Pt2.sub q1 p1)
  let dir2 := Pt2.normalize (Pt2.sub q2 p2)
  let fillet_center := filletCenter inter dir1 dir2 radius
  (fillet_center, tangentPoint fillet_center p1 dir1 radius,
   tangentPoint fillet_center p2 dir2 radius)

namespace Sketch

/-- `Sketch::addFillet`: fails (returns the unchanged sketch and `""`) when an
element is missing, when `getElementIntersection` reports no intersection, or
when the pair is not Line-Line; otherwise appends the Fillet element built
from `filletGeometry` and returns its id. -/
noncomputable def addFillet (s : Sketch) (e1 e2 : String) (radius : ℝ) :
    Sketch × String :=
  let fillet_id := "Fillet_" ++ toString (s.elements.length + 1)
  match s.findElem e1, s.findElem e2 with
  | some E1, some E2 =>
      match getElementIntersection s e1 e2 with
      | none => (s, "")
      | some inter =>
          if E1.type = .LINE ∧ E2.type = .LINE then
            let g := filletGeometry E1.start_point E1.end_point
                E2.start_point E2.end_point inter radius
            ({ s with elements := s.elements ++
                [{ type := .FILLET, id := fillet_id, start_point := g.2.1,
                   end_point := g.2.2, center_point := g.1,
                   parameters := [radius], referenced_elements := [e1, e2] }] },
             fillet_id)
          else (s, "")
  | _, _ => (s, "")

/-- The set of element ids referenced by any Fillet element
(`filleted_elements` in `Sketch::createWire`; only membership matters). -/
def referencedByFillets (es : List SketchElement) : List String :=
  es.foldl (fun acc e =>
    if e.type = .FILLET then acc ++ e.referenced_elements else acc) []

/-- The order in which `Sketch::createWire` draws edge sources from the
element list.  Without fillets it walks the elements in insertion order.  With
fillets it makes two passes pushing into `ordered_edges`: first the elements
that are neither fillets nor referenced by a fillet, then the fillet elements
themselves. -/
def wireElementsOrder (es : List SketchElement) : List SketchElement :=
  if es.any (fun e => e.type = .FILLET) then
    (es.foldl (fun acc e =>
      if e.type ≠ .FILLET ∧ e.id ∉ referencedByFillets es then acc ++ [e]
      else acc) []) ++
    (es.foldl (fun acc e =>
      if e.type = .FILLET then acc ++ [e] else acc) [])
  else es

end Sketch

/-- `PlaneType` of `sketch_plane.h`. -/
inductive PlaneType
  | XY
  | XZ
  | YZ
  | CUSTOM
deriving DecidableEq

/-- The oriented coordinate frame held by a `SketchPlane` (its `gp_Ax2`):
location, X direction, Y direction and main (normal) direction. -/
structure Frame where
  origin : Vec3
  xdir : Vec3
  ydir : Vec3
  normal : Vec3

/-- The frame built by `SketchPlane::SketchPlane(PlaneType, origin)` for the
three canonical types.  `gp_Ax2(origin, N, Vx)` keeps `Vx` as the X direction
(it is already orthogonal to `N` in all three cases) and derives the Y
direction as `N × X`; the values below are those cross products (see
`frame_ydir_eq_cross`).  The `CUSTOM` case is left unset by this constructor
("Will be set up by the other constructor"), modeled as `none`. -/
def canonicalFrame : PlaneType → Vec3 → Option Frame
  | .XY, o => some ⟨o, ⟨1, 0, 0⟩, ⟨0, 1, 0⟩, ⟨0, 0, 1⟩⟩
  | .XZ, o => some ⟨o, ⟨1, 0, 0⟩, ⟨0, 0, -1⟩, ⟨0, 1, 0⟩⟩
  | .YZ, o => some ⟨o, ⟨0, 1, 0⟩, ⟨0, 0, 1⟩, ⟨1, 0, 0⟩⟩
  | .CUSTOM, _ => none

/-- `SketchPlane::to3D`: `location + u*XDirection + v*YDirection`. -/
def Frame.to3D (f : Frame) (q : Pt2) : Vec3 :=
  f.origin.add ((Vec3.smul q.x f.xdir).add (Vec3.smul q.y f.ydir))

/-- `SketchPlane::to2D`: dot products of `point3d - location` with the X and Y
directions. -/
def Frame.to2D (f : Frame) (p : Vec3) : Pt2 :=
  ⟨Vec3.dot (p.sub f.origin) f.xdir, Vec3.dot (p.sub f.origin) f.ydir⟩

/-- A 3D point lies on the plane of a frame when it is reachable from the
location along the two in-plane axes. -/
def Frame.onPlane (f : Frame) (p : Vec3) : Prop :=
  ∃ u v : ℝ, p = f.to3D ⟨u, v⟩

/-- `ExtrudeType` of `extrude_feature.h`. -/
inductive ExtrudeType
  | BLIND
  | THROUGH_ALL
  | TO_SURFACE
  | SYMMETRIC
deriving DecidableEq

/-- `struct ExtrudeParameters` with its field defaults. -/
structure ExtrudeParameters where
  type : ExtrudeType := .BLIND
  distance : ℝ := 10
  direction : Vec3 := ⟨0, 0, 1⟩
  reverse_direction : Bool := false
  taper_angle : ℝ := 0
  distance1 : ℝ := 5
  distance2 : ℝ := 5

/-- The `ExtrudeParameters(double dist, dir = gp_Vec(0,0,1))` constructor used
by `OCCTEngine::extrudeSketch*`. -/
def ExtrudeParameters.ofDistance (dist : ℝ) : ExtrudeParameters :=
  { distance := dist }

/-- The state of an `ExtrudeFeature`.  `Face` and `Shape` are the opaque
kernel handle types (`TopoDS_Face` / `TopoDS_Shape`); a feature built from a
sketch has `base_sketch_` set, one built from a face has `sketch_plane_`
(reduced to its normal, the only datum read) and `face_to_extrude_` set. -/
structure ExtrudeFeature (Face Shape : Type) where
  base_sketch_ : Option Sketch
  sketch_plane_normal_ : Option Vec3
  face_to_extrude_ : Option Face
  parameters_ : ExtrudeParameters
  feature_id_ : String
  result_shape_ : Option Shape := none
  is_valid_ : Bool := false

/-- The geometry-kernel capability interface consumed by the modeling core
(OCCT calls; every operation may fail, `none` models a null result or a
caught `Standard_Failure`). -/
structure Kernel (Face Shape : Type) where
  sketchFace : Sketch → Option Face
  wireIsValid : Sketch → Bool
  faceFromElement : Sketch → String → Option Face
  mkPrism : Face → Vec3 → Option Shape
  analyzerIsValid : Shape → Bool

/-- `Sketch::isValid`: an EMPTY sketch is invalid regardless of the kernel
(`if (elements_.empty()) return false;`); otherwise validity is delegated to
wire construction and analysis (`createWire()` non-null and
`BRepCheck_Analyzer::IsValid`, modeled by `Kernel.wireIsValid`). -/
def sketchIsValid {Face Shape : Type} (K : Kernel Face Shape) (s : Sketch) :
    Bool :=
  if s.elements.isEmpty then false else K.wireIsValid s

/-- `Sketch::getValidationErrors`, in source order: "Sketch is empty" for an
empty element list, then "Sketch geometry is invalid" whenever `isValid`
fails. -/
def sketchValidationErrors {Face Shape : Type} (K : Kernel Face Shape)
    (s : Sketch) : List String :=
  (if s.elements.isEmpty then ["Sketch is empty"] else []) ++
  (if sketchIsValid K s then [] else ["Sketch geometry is invalid"])

namespace ExtrudeFeature

variable {Face Shape : Type}

/-- `ExtrudeFeature::calculateExtrudeDirection`: the base sketch's plane
normal when a base sketch exists, else the stored plane's normal, else
`(0,0,1)`.  The supplied `parameters_.direction` is not consulted. -/
def calculateExtrudeDirection (f : ExtrudeFeature Face Shape) : Vec3 :=
  match f.base_sketch_ with
  | some sk => sk.planeNormal
  | none =>
      match f.sketch_plane_normal_ with
      | some n => n
      | none => ⟨0, 0, 1⟩

/-- `ExtrudeFeature::getValidationErrors`, in source order. -/
noncomputable def getValidationErrors (K : Kernel Face Shape)
    (f : ExtrudeFeature Face Shape) : List String :=
  match f.base_sketch_, f.face_to_extrude_ with
  | none, none => ["No base sketch or face provided"]
  | _, _ =>
    (match f.base_sketch_ with
     | some sk =>
         if sketchIsValid K sk then []
         else "Base sketch is invalid" :: sketchValidationErrors K sk
     | none => []) ++
    (if f.parameters_.distance ≤ 0 ∧ f.parameters_.type = .BLIND then
       ["Extrude distance must be positive"] else []) ++
    (if f.parameters_.type = .SYMMETRIC ∧
        (f.parameters_.distance1 ≤ 0 ∨ f.parameters_.distance2 ≤ 0) then
       ["Symmetric extrude distances must be positive"] else []) ++
    (if f.parameters_.direction.norm < 1e-6 then
       ["Extrude direction vector is too small"] else [])

/-- `ExtrudeFeature::canExtrude`. -/
noncomputable def canExtrude (K : Kernel Face Shape)
    (f : ExtrudeFeature Face Shape) : Prop :=
  getValidationErrors K f = []

/-- The face resolution shared by both extrude paths: the directly provided
face when present, otherwise the base sketch's face via the kernel. -/
def resolveFace (K : Kernel Face Shape) (f : ExtrudeFeature Face Shape) :
    Option Face :=
  match f.face_to_extrude_ with
  | some fc => some fc
  | none =>
      match f.base_sketch_ with
      | some sk => K.sketchFace sk
      | none => none

/-- `ExtrudeFeature::performBlindExtrude`: sweep vector
`direction * distance`, reversed when requested. -/
noncomputable def performBlindExtrude (K : Kernel Face Shape)
    (f : ExtrudeFeature Face Shape) : Option Shape :=
  match resolveFace K f with
  | none => none
  | some fc =>
      let v := Vec3.smul f.parameters_.distance (calculateExtrudeDirection f)
      K.mkPrism fc (if f.parameters_.reverse_direction then v.neg else v)

/-- The total sweep vector of `ExtrudeFeature::performSymmetricExtrude`:
`positive_vector = direction * distance1`, `negative_vector =
direction * (-distance2)`, then their sum. -/
def symmetricTotalVector (direction : Vec3) (distance1 distance2 : ℝ) : Vec3 :=
  (Vec3.smul distance1 direction).add (Vec3.smul (-distance2) direction)

/-- `ExtrudeFeature::performSymmetricExtrude`. -/
noncomputable def performSymmetricExtrude (K : Kernel Face Shape)
    (f : ExtrudeFeature Face Shape) : Option Shape :=
  match resolveFace K f with
  | none => none
  | some fc =>
      K.mkPrism fc (symmetricTotalVector (calculateExtrudeDirection f)
        f.parameters_.distance1 f.parameters_.distance2)

/-- `ExtrudeFeature::execute`: validation gate, branch by type (ThroughAll
and ToSurface fall back to the blind path), then kernel validity analysis.
Returns the updated feature state and the boolean return value. -/
noncomputable def execute (K : Kernel Face Shape)
    (f : ExtrudeFeature Face Shape) : ExtrudeFeature Face Shape × Bool :=
  if getValidationErrors K f ≠ [] then ({ f with is_valid_ := false }, false)
  else
    let res :=
      match f.parameters_.type with
      | .BLIND => performBlindExtrude K f
      | .SYMMETRIC => performSymmetricExtrude K f
      | .THROUGH_ALL => performBlindExtrude K f
      | .TO_SURFACE => performBlindExtrude K f
    match res with
    | some sh =>
        let ok := K.analyzerIsValid sh
        ({ f with result_shape_ := some sh, is_valid_ := ok }, ok)
    | none => ({ f with result_shape_ := none, is_valid_ := false }, false)

/-- Replace the extrude type of a feature's parameters. -/
def setType (f : ExtrudeFeature Face Shape) (t : ExtrudeType) :
    ExtrudeFeature Face Shape :=
  { f with parameters_ := { f.parameters_ with type := t } }

/-- Replace the direction parameter of a feature (`setDirection`). -/
def setDirection (f : ExtrudeFeature Face Shape) (d : Vec3) :
    ExtrudeFeature Face Shape :=
  { f with parameters_ := { f.parameters_ with direction := d } }

end ExtrudeFeature

/-- The data of a stored `SketchPlane` that the engine-level operations read:
its type, origin, normal and identifier. -/
structure PlaneRec where
  ptype : PlaneType
  origin : Vec3
  normal : Vec3
  plane_id : String

/-- The plane built by `OCCTEngine::createSketchPlane`'s dispatch on the
type string: each canonical type carries a FIXED identifier assigned in
`SketchPlane::SketchPlane` (`"XY_Plane"`, `"XZ_Plane"`, `"YZ_Plane"`);
unknown type strings are rejected. -/
def mkCanonicalPlane (plane_type : String) (origin : Vec3) : Option PlaneRec :=
  if plane_type = "XY" then some ⟨.XY, origin, ⟨0, 0, 1⟩, "XY_Plane"⟩
  else if plane_type = "XZ" then some ⟨.XZ, origin, ⟨0, 1, 0⟩, "XZ_Plane"⟩
  else if plane_type = "YZ" then some ⟨.YZ, origin, ⟨1, 0, 0⟩, "YZ_Plane"⟩
  else none

/-- `std::map` lookup. -/
def findKV {α : Type} : List (String × α) → String → Option α
  | [], _ => none
  | (k', v) :: rest, k => if k' = k then some v else findKV rest k

/-- `std::map` bracket assignment: replaces the value under an existing key,
otherwise appends the binding. -/
def insertKV {α : Type} : List (String × α) → String → α → List (String × α)
  | [], k, v => [(k, v)]
  | (k', v') :: rest, k, v =>
      if k' = k then (k, v) :: rest else (k', v') :: insertKV rest k v

/-- The per-session modeling state of `OCCTEngine`: identifier-keyed
registries of shapes, sketch planes, sketches and extrude features.  A stored
shape is an `Option Shape` because `TopoDS_Shape` values are nullable. -/
structure Engine (Face Shape : Type) where
  shapes : List (String × Option Shape) := []
  sketch_planes : List (String × PlaneRec) := []
  sketches : List (String × Sketch) := []
  extrude_features : List (String × ExtrudeFeature Face Shape) := []

namespace Engine

variable {Face Shape : Type}

/-- `OCCTEngine::createSketchPlane`: dispatch on the type string, store the
plane under its (type-determined) id, return the id; unknown types fail with
`""`. -/
def createSketchPlane (E : Engine Face Shape) (plane_type : String)
    (origin : Vec3) : Engine Face Shape × String :=
  match mkCanonicalPlane plane_type origin with
  | none => (E, "")
  | some pr =>
      ({ E with sketch_planes := insertKV E.sketch_planes pr.plane_id pr },
       pr.plane_id)

/-- `OCCTEngine::extrudeSketch(sketch_id, distance, direction)`: looks the
sketch up, builds `ExtrudeParameters(distance)`, creates a feature (its id is
`"Extrude_" + time(nullptr)`, modeled by the `now` argument), executes it and
on success stores the feature and its shape under the feature id.  The
`direction` string argument is accepted but never read. -/
noncomputable def extrudeSketch (K : Kernel Face Shape) (E : Engine Face Shape)
    (sketch_id : String) (distance : ℝ) (direction : String) (now : ℕ) :
    Engine Face Shape × String :=
  match findKV E.sketches sketch_id with
  | none => (E, "")
  | some sk =>
      let f : ExtrudeFeature Face Shape :=
        { base_sketch_ := some sk, sketch_plane_normal_ := none,
          face_to_extrude_ := none,
          parameters_ := ExtrudeParameters.ofDistance distance,
          feature_id_ := "Extrude_" ++ toString now }
      let r := ExtrudeFeature.execute K f
      if r.2 then
        ({ E with
            extrude_features :=
              insertKV E.extrude_features r.1.feature_id_ r.1,
            shapes := insertKV E.shapes r.1.feature_id_ r.1.result_shape_ },
         r.1.feature_id_)
      else (E, "")

/-- `OCCTEngine::extrudeSketchElement(sketch_id, element_id, distance,
direction)`: builds a face from the single element, creates a face-based
feature carrying the sketch's plane, executes and stores it.  The `direction`
string argument is accepted but never read. -/
noncomputable def extrudeSketchElement (K : Kernel Face Shape)
    (E : Engine Face Shape) (sketch_id element_id : String) (distance : ℝ)
    (direction : String) (now : ℕ) : Engine Face Shape × String :=
  match findKV E.sketches sketch_id with
  | none => (E, "")
  | some sk =>
      match K.faceFromElement sk element_id with
      | none => (E, "")
      | some fc =>
          let f : ExtrudeFeature Face Shape :=
            { base_sketch_ := none,
              sketch_plane_normal_ := some sk.planeNormal,
              face_to_extrude_ := some fc,
              parameters_ := ExtrudeParameters.ofDistance distance,
              feature_id_ := "Extrude_" ++ toString now }
          let r := ExtrudeFeature.execute K f
          if r.2 then
            ({ E with
                extrude_features :=
                  insertKV E.extrude_features r.1.feature_id_ r.1,
                shapes :=
                  insertKV E.shapes r.1.feature_id_ r.1.result_shape_ },
             r.1.feature_id_)
          else (E, "")

end Engine

/-! ### Concrete fixtures used to evaluate the model on specific inputs -/

/-- An empty sketch on the XY plane (normal `(0,0,1)`). -/
def sketchXY : Sketch := ⟨⟨0, 0, 1⟩, []⟩

/-- A sketch-based extrude feature whose parameters carry an explicitly
supplied, non-degenerate direction `(1,0,0)` differing from the plane
normal. -/
def featDirX : ExtrudeFeature Unit Unit :=
  { base_sketch_ := some sketchXY, sketch_plane_normal_ := none,
    face_to_extrude_ := none,
    parameters_ := { direction := ⟨1, 0, 0⟩ }, feature_id_ := "F" }

/-- A NONEMPTY sketch on the XY plane holding one circle of radius 5 at the
origin (as `addCircle` stores it). -/
def sketchCircle : Sketch :=
  { planeNormal := ⟨0, 0, 1⟩,
    elements := [{ type := .CIRCLE, id := "Circle_1",
                   center_point := ⟨0, 0⟩, parameters := [5] }] }

/-- A sketch-based extrude feature on the nonempty circle sketch with a
NEGATIVE distance parameter and all other parameters at their defaults. -/
def featNegDist : ExtrudeFeature Unit Unit :=
  { base_sketch_ := some sketchCircle, sketch_plane_normal_ := none,
    face_to_extrude_ := none,
    parameters_ := { distance := -5 }, feature_id_ := "F" }

/-- A sketch-based extrude feature on the nonempty circle sketch with all
parameters at their defaults (distance 10). -/
def featCirclePos : ExtrudeFeature Unit Unit :=
  { base_sketch_ := some sketchCircle, sketch_plane_normal_ := none,
    face_to_extrude_ := none, parameters_ := {}, feature_id_ := "F" }

/-- A kernel oracle for which every delegated operation succeeds. -/
def okKernel : Kernel Unit Unit :=
  { sketchFace := fun _ => some (), wireIsValid := fun _ => true,
    faceFromElement := fun _ _ => some (),
    mkPrism := fun _ _ => some (), analyzerIsValid := fun _ => true }

/-- An empty modeling session. -/
def engine0 : Engine Unit Unit := {}

/-- The sketch `addLine (0,0)-(1,0); addLine (0,1)-(1,1); removeElement
"Line_1"; addLine (2,2)-(3,3)` used to exercise identifier generation. -/
def sketchReuse : Sketch :=
  ((((sketchXY.addLine ⟨0, 0⟩ ⟨1, 0⟩).1.addLine ⟨0, 1⟩ ⟨1, 1⟩).1.removeElement
      "Line_1").addLine ⟨2, 2⟩ ⟨3, 3⟩).1

/-- Two concrete perpendicular Line elements and a Fillet element referencing
them, as `addFillet` stores them (ids follow the generated scheme). -/
def filletedElems : List SketchElement :=
  [{ type := .LINE, id := "Line_1", start_point := ⟨0, 0⟩,
     end_point := ⟨10, 0⟩ },
   { type := .LINE, id := "Line_2", start_point := ⟨10, 0⟩,
     end_point := ⟨10, 10⟩ },
   { type := .FILLET, id := "Fillet_3", start_point := ⟨12, 0⟩,
     end_point := ⟨10, 2⟩, center_point := ⟨12, 2⟩, parameters := [2],
     referenced_elements := ["Line_1", "Line_2"] }]

/-- A sketch with two PARALLEL horizontal lines. -/
def sketchParallel : Sketch :=
  ((sketchXY.addLine ⟨0, 0⟩ ⟨1, 0⟩).1.addLine ⟨0, 1⟩ ⟨1, 1⟩).1

/-- A sketch with the two perpendicular lines of the spec's end-to-end
scenario: `(0,0)-(10,0)` and `(10,0)-(10,10)`. -/
def sketchCorner : Sketch :=
  ((sketchXY.addLine ⟨0, 0⟩ ⟨10, 0⟩).1.addLine ⟨10, 0⟩ ⟨10, 10⟩).1

/-! ### Supporting lemmas -/

namespace Pt2

@[simp] theorem add_x (a b : Pt2) : (add a b).x = a.x + b.x := rfl

@[simp] theorem add_y (a b : Pt2) : (add a b).y = a.y + b.y := rfl

@[simp] theorem sub_x (a b : Pt2) : (sub a b).x = a.x - b.x := rfl

@[simp] theorem sub_y (a b : Pt2) : (sub a b).y = a.y - b.y := rfl

@[simp] theorem smul_x (t : ℝ) (a : Pt2) : (smul t a).x = t * a.x := rfl

@[simp] theorem smul_y (t : ℝ) (a : Pt2) : (smul t a).y = t * a.y := rfl

theorem dot_self_nonneg (a : Pt2) : 0 ≤ dot a a := by
  have hx : 0 ≤ a.x * a.x := mul_self_nonneg _
  have hy : 0 ≤ a.y * a.y := mul_self_nonneg _
  simpa [dot] using add_nonneg hx hy

theorem norm_nonneg (a : Pt2) : 0 ≤ norm a := Real.sqrt_nonneg _

theorem norm_sq (a : Pt2) : norm a * norm a = dot a a :=
  Real.mul_self_sqrt (dot_self_nonneg a)

theorem norm_pos_of_dot_pos {a : Pt2} (h : 0 < dot a a) : 0 < norm a :=
  Real.sqrt_pos.mpr h

/-- A vector whose squared length is `r ^ 2` with `0 ≤ r` has norm `r`. -/
theorem norm_eq_of_dot_eq {a : Pt2} {r : ℝ} (hr : 0 ≤ r) (h : dot a a = r ^ 2) :
    norm a = r := by
  rw [norm, h, sq]
  exact Real.sqrt_mul_self hr

/-- Lagrange's identity in the plane. -/
theorem dot_sq_add_cross_sq (a b : Pt2) :
    dot a b ^ 2 + cross a b ^ 2 = dot a a * dot b b := by
  simp only [dot, cross]
  ring

/-- A vector that is not parallel-degenerate with another is itself nonzero
in the squared-length sense. -/
theorem dot_self_pos_of_cross_ne {a b : Pt2} (h : cross a b ≠ 0) :
    0 < dot a a := by
  rcases lt_or_eq_of_le (dot_self_nonneg a) with hlt | heq
  · exact hlt
  · exfalso
    have heq' : a.x * a.x + a.y * a.y = 0 := by simpa [dot] using heq.symm
    have hx : a.x = 0 := by nlinarith [mul_self_nonneg a.x, mul_self_nonneg a.y]
    have hy : a.y = 0 := by nlinarith [mul_self_nonneg a.x, mul_self_nonneg a.y]
    exact h (by simp [cross, hx, hy])

theorem dot_self_pos_of_cross_ne' {a b : Pt2} (h : cross a b ≠ 0) :
    0 < dot b b := by
  apply dot_self_pos_of_cross_ne (b := a)
  intro hc
  apply h
  simp only [cross] at hc ⊢
  linarith

theorem dot_comm (a b : Pt2) : dot a b = dot b a := by
  simp only [dot]
  ring

theorem dot_add_left (a b c : Pt2) : dot (add a b) c = dot a c + dot b c := by
  simp only [dot, add]
  ring

theorem dot_smul_left (t : ℝ) (a b : Pt2) : dot (smul t a) b = t * dot a b := by
  simp only [dot, smul]
  ring

theorem dot_smul_smul (a b : ℝ) (u v : Pt2) :
    dot (smul a u) (smul b v) = a * b * dot u v := by
  simp only [dot, smul]
  ring

theorem cross_smul_smul (a b : ℝ) (u v : Pt2) :
    cross (smul a u) (smul b v) = a * b * cross u v := by
  simp only [cross, smul]
  ring

theorem cross_self (a : Pt2) : cross a a = 0 := by
  simp only [cross]
  ring

theorem smul_smul_assoc (a b : ℝ) (u : Pt2) :
    smul a (smul b u) = smul (a * b) u := by
  ext <;> simp [smul] <;> ring

/-- A normalized nonzero vector is a unit vector. -/
theorem normalize_dot_self {d : Pt2} (hd : 0 < dot d d) :
    dot (normalize d) (normalize d) = 1 :=
  calc dot (normalize d) (normalize d)
      = (norm d)⁻¹ * (norm d)⁻¹ * dot d d := dot_smul_smul _ _ _ _
    _ = dot d d / (norm d * norm d) := by ring
    _ = dot d d / dot d d := by rw [norm_sq]
    _ = 1 := div_self (ne_of_gt hd)

/-- Scaling a normalized vector back by its magnitude recovers it. -/
theorem smul_norm_normalize {d : Pt2} (hd : 0 < dot d d) :
    smul (norm d) (normalize d) = d := by
  have hn : norm d ≠ 0 := ne_of_gt (norm_pos_of_dot_pos hd)
  ext <;> simp only [normalize, smul] <;> field_simp

/-- A scaling of a nonzero vector, re-expressed along its unit direction. -/
theorem smul_eq_smul_normalize (T : ℝ) {d : Pt2} (hd : 0 < dot d d) :
    smul T d = smul (T * norm d) (normalize d) := by
  rw [← smul_smul_assoc, smul_norm_normalize hd]

end Pt2

/-- The per-line tangent step of the fillet construction: when the center `C`
sits at offset `o` along a unit vector `b` from a point `A` of the line
through `p` with unit direction `u`, and the offset satisfies
`o² (1 - (b⬝u)²) = r²`, the computed tangent point is exactly the orthogonal
projection of `C` onto the line and lies at distance `r` from `C`. -/
theorem tangentPoint_spec (p u b A C : Pt2) (o t r : ℝ)
    (hu : Pt2.dot u u = 1) (hbb : Pt2.dot b b = 1)
    (hA : A = Pt2.add p (Pt2.smul t u))
    (hC : C = Pt2.add A (Pt2.smul o b))
    (hval : o ^ 2 * (1 - Pt2.dot b u ^ 2) = r ^ 2) (hr : 0 < r) :
    tangentPoint C p u r = Pt2.add p (Pt2.smul (Pt2.dot (Pt2.sub C p) u) u) ∧
    Pt2.norm (Pt2.sub (tangentPoint C p u r) C) = r := by
  subst hA
  subst hC
  set w : Pt2 := Pt2.add (Pt2.smul t u) (Pt2.smul o b) with hw
  have hCw : Pt2.add (Pt2.add p (Pt2.smul t u)) (Pt2.smul o b) = Pt2.add p w := by
    ext <;> simp [hw, Pt2.add, Pt2.smul] <;> ring
  rw [hCw]
  have hCp : Pt2.sub (Pt2.add p w) p = w := by
    ext <;> simp [Pt2.add, Pt2.sub]
  rw [hCp]
  have hk : Pt2.dot w u = t + o * Pt2.dot b u := by
    rw [hw, Pt2.dot_add_left, Pt2.dot_smul_left, Pt2.dot_smul_left, hu]
    ring
  -- the perpendicular component of `w` relative to the line direction
  set v : Pt2 := Pt2.sub w (Pt2.smul (Pt2.dot w u) u) with hv
  have hproj : Pt2.sub (Pt2.add p w) (Pt2.add p (Pt2.smul (Pt2.dot w u) u)) = v := by
    ext <;> simp [hv, Pt2.add, Pt2.sub, Pt2.smul]
  have hvv : Pt2.dot v v = r ^ 2 := by
    have expand : Pt2.dot v v =
        Pt2.dot w w - 2 * Pt2.dot w u * Pt2.dot w u +
          Pt2.dot w u ^ 2 * Pt2.dot u u := by
      simp only [hv, Pt2.dot, Pt2.sub, Pt2.smul]
      ring
    have hww : Pt2.dot w w =
        t ^ 2 + 2 * t * o * Pt2.dot b u + o ^ 2 * Pt2.dot b b := by
      rw [hw]
      simp only [Pt2.dot, Pt2.add, Pt2.smul, hu]
      have huc : u.x * u.x + u.y * u.y = 1 := by simpa [Pt2.dot] using hu
      linear_combination t ^ 2 * huc
    rw [expand, hu, hww, hbb, hk]
    linear_combination hval
  have hnv : Pt2.norm v = r := Pt2.norm_eq_of_dot_eq hr.le hvv
  have htan : tangentPoint (Pt2.add p w) p u r =
      Pt2.add p (Pt2.smul (Pt2.dot w u) u) := by
    show Pt2.sub (Pt2.add p w)
        (Pt2.smul r (Pt2.normalize
          (Pt2.sub (Pt2.add p w)
            (Pt2.add p (Pt2.smul (Pt2.dot (Pt2.sub (Pt2.add p w) p) u) u))))) =
      Pt2.add p (Pt2.smul (Pt2.dot w u) u)
    rw [hCp, hproj]
    have hrn : Pt2.smul r (Pt2.normalize v) = v := by
      have hr0 : r ≠ 0 := ne_of_gt hr
      rw [Pt2.normalize, hnv, Pt2.smul_smul_assoc]
      ext <;> simp [Pt2.smul] <;> field_simp
    rw [hrn, hv]
    ext <;> simp [Pt2.add, Pt2.sub, Pt2.smul] <;> ring
  refine ⟨htan, ?_⟩
  rw [htan]
  have hback : Pt2.sub (Pt2.add p (Pt2.smul (Pt2.dot w u) u)) (Pt2.add p w) =
      Pt2.smul (-1) v := by
    ext <;> simp [hv, Pt2.add, Pt2.sub, Pt2.smul]
  rw [hback]
  refine Pt2.norm_eq_of_dot_eq hr.le ?_
  rw [Pt2.dot_smul_smul]
  rw [hvv]
  ring

/-- The computed intersection point lies on the first line. -/
theorem lineIntersectionPoint_on_first (p1 d1 p2 d2 : Pt2) :
    lineIntersectionPoint p1 d1 p2 d2 =
      Pt2.add p1 (Pt2.smul
        (((p2.x - p1.x) * d2.y - (p2.y - p1.y) * d2.x) / Pt2.cross d1 d2) d1) := by
  ext <;> simp [lineIntersectionPoint, Pt2.add, Pt2.smul]

/-- Cramer's rule: when the determinant is nonzero the computed intersection
point also lies on the second line. -/
theorem lineIntersectionPoint_on_second (p1 d1 p2 d2 : Pt2)
    (hdet : Pt2.cross d1 d2 ≠ 0) :
    lineIntersectionPoint p1 d1 p2 d2 =
      Pt2.add p2 (Pt2.smul
        (((p2.x - p1.x) * d1.y - (p2.y - p1.y) * d1.x) / Pt2.cross d1 d2) d2) := by
  have hd : Pt2.cross d1 d2 = d1.x * d2.y - d1.y * d2.x := rfl
  ext <;> simp only [lineIntersectionPoint, Pt2.add, Pt2.smul, Pt2.cross] <;>
    field_simp [hd ▸ hdet] <;> ring

/-- The full tangency property of the fillet construction: for two
non-parallel lines `(p1,q1)`, `(p2,q2)` and a positive radius, both computed
tangent points are the orthogonal projections of the computed center onto the
respective lines, lie at distance exactly `radius` from the center, and lie on
the respective carrying lines (perpendicular distance zero). -/
theorem filletGeometry_tangency (p1 q1 p2 q2 : Pt2) (r : ℝ)
    (hcr : Pt2.cross (Pt2.sub q1 p1) (Pt2.sub q2 p2) ≠ 0) (hr : 0 < r) :
    Pt2.norm (Pt2.sub
      (filletGeometry p1 q1 p2 q2
        (lineIntersectionPoint p1 (Pt2.sub q1 p1) p2 (Pt2.sub q2 p2)) r).2.1
      (filletGeometry p1 q1 p2 q2
        (lineIntersectionPoint p1 (Pt2.sub q1 p1) p2 (Pt2.sub q2 p2)) r).1) = r ∧
    Pt2.norm (Pt2.sub
      (filletGeometry p1 q1 p2 q2
        (lineIntersectionPoint p1 (Pt2.sub q1 p1) p2 (Pt2.sub q2 p2)) r).2.2
      (filletGeometry p1 q1 p2 q2
        (lineIntersectionPoint p1 (Pt2.sub q1 p1) p2 (Pt2.sub q2 p2)) r).1) = r ∧
    perpDistToLine
      (filletGeometry p1 q1 p2 q2
        (lineIntersectionPoint p1 (Pt2.sub q1 p1) p2 (Pt2.sub q2 p2)) r).2.1
      p1 q1 = 0 ∧
    perpDistToLine
      (filletGeometry p1 q1 p2 q2
        (lineIntersectionPoint p1 (Pt2.sub q1 p1) p2 (Pt2.sub q2 p2)) r).2.2
      p2 q2 = 0 := by
  set d1 : Pt2 := Pt2.sub q1 p1 with hd1def
  set d2 : Pt2 := Pt2.sub q2 p2 with hd2def
  set A : Pt2 := lineIntersectionPoint p1 d1 p2 d2 with hAdef
  set u1 : Pt2 := Pt2.normalize d1 with hu1def
  set u2 : Pt2 := Pt2.normalize d2 with hu2def
  have hd1 : 0 < Pt2.dot d1 d1 := Pt2.dot_self_pos_of_cross_ne hcr
  have hd2 : 0 < Pt2.dot d2 d2 := Pt2.dot_self_pos_of_cross_ne' hcr
  have hn1 : 0 < Pt2.norm d1 := Pt2.norm_pos_of_dot_pos hd1
  have hn2 : 0 < Pt2.norm d2 := Pt2.norm_pos_of_dot_pos hd2
  have hu1 : Pt2.dot u1 u1 = 1 := Pt2.normalize_dot_self hd1
  have hu2 : Pt2.dot u2 u2 = 1 := Pt2.normalize_dot_self hd2
  set c : ℝ := Pt2.dot u1 u2 with hcdef
  -- the unit directions are not parallel either
  have hcu : Pt2.cross u1 u2 ≠ 0 := by
    rw [hu1def, hu2def, Pt2.normalize, Pt2.normalize, Pt2.cross_smul_smul]
    exact mul_ne_zero (mul_ne_zero (inv_ne_zero (ne_of_gt hn1))
      (inv_ne_zero (ne_of_gt hn2))) hcr
  have hcsq : c ^ 2 < 1 := by
    have hlag := Pt2.dot_sq_add_cross_sq u1 u2
    rw [hu1, hu2] at hlag
    have hx2 : 0 < Pt2.cross u1 u2 ^ 2 := by
      rcases hcu.lt_or_lt with h | h
      · nlinarith
      · nlinarith
    nlinarith
  have hcl : -1 < c := by nlinarith
  have hcr' : c < 1 := by nlinarith
  -- the bisector
  have hm : Pt2.dot (Pt2.add u1 u2) (Pt2.add u1 u2) = 2 + 2 * c := by
    rw [Pt2.dot_add_left]
    rw [Pt2.dot_comm u1 (Pt2.add u1 u2), Pt2.dot_comm u2 (Pt2.add u1 u2)]
    rw [Pt2.dot_add_left, Pt2.dot_add_left]
    rw [Pt2.dot_comm u2 u1]
    rw [hu1, hu2, hcdef]
    ring
  have hmpos : 0 < Pt2.dot (Pt2.add u1 u2) (Pt2.add u1 u2) := by
    rw [hm]; linarith
  set b : Pt2 := Pt2.normalize (Pt2.add u1 u2) with hbdef
  have hbb : Pt2.dot b b = 1 := Pt2.normalize_dot_self hmpos
  have hmn : 0 < Pt2.norm (Pt2.add u1 u2) := Pt2.norm_pos_of_dot_pos hmpos
  have hmm : Pt2.norm (Pt2.add u1 u2) * Pt2.norm (Pt2.add u1 u2) = 2 + 2 * c := by
    rw [Pt2.norm_sq]; exact hm
  have hb1 : Pt2.dot b u1 = (Pt2.norm (Pt2.add u1 u2))⁻¹ * (1 + c) := by
    rw [hbdef, Pt2.normalize, Pt2.dot_smul_left, Pt2.dot_add_left]
    rw [hu1, Pt2.dot_comm u2 u1, hcdef]
  have hb2 : Pt2.dot b u2 = (Pt2.norm (Pt2.add u1 u2))⁻¹ * (1 + c) := by
    rw [hbdef, Pt2.normalize, Pt2.dot_smul_left, Pt2.dot_add_left]
    rw [hu2, hcdef]
    ring
  have hbval : ((Pt2.norm (Pt2.add u1 u2))⁻¹ * (1 + c)) ^ 2 = (1 + c) / 2 := by
    rw [mul_pow, inv_pow]
    rw [show Pt2.norm (Pt2.add u1 u2) ^ 2 = 2 + 2 * c by rw [sq]; exact hmm]
    have h2c : (2 : ℝ) + 2 * c ≠ 0 := by linarith
    field_simp
    ring_nf
  -- the half-angle sine
  set s : ℝ := Real.sin (Real.arccos c / 2) with hsdef
  have hs2 : s ^ 2 = (1 - c) / 2 := by
    rw [hsdef, Real.sin_sq_eq_half_sub]
    rw [show 2 * (Real.arccos c / 2) = Real.arccos c by ring]
    rw [Real.cos_arccos (by linarith) (by linarith)]
    ring
  have hsnn : 0 ≤ s := by
    refine Real.sin_nonneg_of_nonneg_of_le_pi ?_ ?_
    · exact div_nonneg (Real.arccos_nonneg c) (by norm_num)
    · have h1 := Real.arccos_le_pi c
      have h2 := Real.pi_pos
      linarith
  have hspos : 0 < s := by
    have h1 : 0 < s ^ 2 := by rw [hs2]; linarith
    rcases eq_or_lt_of_le hsnn with h | h
    · rw [← h] at h1; norm_num at h1
    · exact h
  -- the offset satisfies the tangency budget, for both lines
  have hoff : filletOffset u1 u2 r = r / s := by
    rw [filletOffset, ← hcdef, ← hsdef]
  have hval1 : filletOffset u1 u2 r ^ 2 * (1 - Pt2.dot b u1 ^ 2) = r ^ 2 := by
    rw [hoff, hb1, hbval]
    rw [show 1 - (1 + c) / 2 = (1 - c) / 2 by ring, ← hs2]
    field_simp
  have hval2 : filletOffset u1 u2 r ^ 2 * (1 - Pt2.dot b u2 ^ 2) = r ^ 2 := by
    rw [hoff, hb2, hbval]
    rw [show 1 - (1 + c) / 2 = (1 - c) / 2 by ring, ← hs2]
    field_simp
  -- the intersection lies on both lines, in unit-direction form
  have hA1 : A = Pt2.add p1 (Pt2.smul
      ((((p2.x - p1.x) * d2.y - (p2.y - p1.y) * d2.x) / Pt2.cross d1 d2) *
        Pt2.norm d1) u1) := by
    rw [hAdef, lineIntersectionPoint_on_first,
      Pt2.smul_eq_smul_normalize _ hd1, ← hu1def]
  have hA2 : A = Pt2.add p2 (Pt2.smul
      ((((p2.x - p1.x) * d1.y - (p2.y - p1.y) * d1.x) / Pt2.cross d1 d2) *
        Pt2.norm d2) u2) := by
    rw [hAdef, lineIntersectionPoint_on_second p1 d1 p2 d2 hcr,
      Pt2.smul_eq_smul_normalize _ hd2, ← hu2def]
  -- the fillet center as an offset from the intersection along the bisector
  have hCdef : filletCenter A u1 u2 r =
      Pt2.add A (Pt2.smul (filletOffset u1 u2 r) b) := by
    rw [filletCenter, ← hbdef]
  obtain ⟨htan1, hdist1⟩ := tangentPoint_spec p1 u1 b A (filletCenter A u1 u2 r)
    (filletOffset u1 u2 r)
    ((((p2.x - p1.x) * d2.y - (p2.y - p1.y) * d2.x) / Pt2.cross d1 d2) *
      Pt2.norm d1) r hu1 hbb hA1 hCdef hval1 hr
  obtain ⟨htan2, hdist2⟩ := tangentPoint_spec p2 u2 b A (filletCenter A u1 u2 r)
    (filletOffset u1 u2 r)
    ((((p2.x - p1.x) * d1.y - (p2.y - p1.y) * d1.x) / Pt2.cross d1 d2) *
      Pt2.norm d2) r hu2 hbb hA2 hCdef hval2 hr
  have hg : filletGeometry p1 q1 p2 q2 A r =
      (filletCenter A u1 u2 r, tangentPoint (filletCenter A u1 u2 r) p1 u1 r,
       tangentPoint (filletCenter A u1 u2 r) p2 u2 r) := rfl
  rw [hg]
  refine ⟨hdist1, hdist2, ?_, ?_⟩
  · rw [htan1, perpDistToLine]
    have hline : Pt2.sub (Pt2.add p1 (Pt2.smul
        (Pt2.dot (Pt2.sub (filletCenter A u1 u2 r) p1) u1) u1)) p1 =
        Pt2.smul (Pt2.dot (Pt2.sub (filletCenter A u1 u2 r) p1) u1) u1 := by
      ext <;> simp [Pt2.add, Pt2.sub, Pt2.smul]
    rw [hline]
    have hd1u : Pt2.sub q1 p1 = Pt2.smul (Pt2.norm d1) u1 := by
      rw [hu1def]
      exact (Pt2.smul_norm_normalize hd1).symm
    rw [hd1u, Pt2.cross_smul_smul, Pt2.cross_self, mul_zero, abs_zero, zero_div]
  · rw [htan2, perpDistToLine]
    have hline : Pt2.sub (Pt2.add p2 (Pt2.smul
        (Pt2.dot (Pt2.sub (filletCenter A u1 u2 r) p2) u2) u2)) p2 =
        Pt2.smul (Pt2.dot (Pt2.sub (filletCenter A u1 u2 r) p2) u2) u2 := by
      ext <;> simp [Pt2.add, Pt2.sub, Pt2.smul]
    rw [hline]
    have hd2u : Pt2.sub q2 p2 = Pt2.smul (Pt2.norm d2) u2 := by
      rw [hu2def]
      exact (Pt2.smul_norm_normalize hd2).symm
    rw [hd2u, Pt2.cross_smul_smul, Pt2.cross_self, mul_zero, abs_zero, zero_div]

/-- A generated element identifier is never the empty failure string. -/
theorem generated_id_ne_empty (prefixStr : String) (n : ℕ)
    (hp : prefixStr.length ≠ 0) : prefixStr ++ toString n ≠ "" := by
  intro h
  have hlen := congrArg String.length h
  rw [String.length_append] at hlen
  have h0 : ("" : String).length = 0 := rfl
  omega

/-- Reduction of `Sketch::addFillet` on its success path: both elements found,
both of Line type, determinant above the epsilon. -/
theorem addFillet_success (s : Sketch) (e1 e2 : String) (r : ℝ)
    (E1 E2 : SketchElement)
    (h1 : s.findElem e1 = some E1) (h2 : s.findElem e2 = some E2)
    (hL1 : E1.type = .LINE) (hL2 : E2.type = .LINE)
    (hdet : ¬ |Pt2.cross (Pt2.sub E1.end_point E1.start_point)
        (Pt2.sub E2.end_point E2.start_point)| < 1e-10) :
    s.addFillet e1 e2 r =
      ({ s with elements := s.elements ++
          [{ type := .FILLET,
             id := "Fillet_" ++ toString (s.elements.length + 1),
             start_point := (filletGeometry E1.start_point E1.end_point
               E2.start_point E2.end_point
               (lineIntersectionPoint E1.start_point
                 (Pt2.sub E1.end_point E1.start_point) E2.start_point
                 (Pt2.sub E2.end_point E2.start_point)) r).2.1,
             end_point := (filletGeometry E1.start_point E1.end_point
               E2.start_point E2.end_point
               (lineIntersectionPoint E1.start_point
                 (Pt2.sub E1.end_point E1.start_point) E2.start_point
                 (Pt2.sub E2.end_point E2.start_point)) r).2.2,
             center_point := (filletGeometry E1.start_point E1.end_point
               E2.start_point E2.end_point
               (lineIntersectionPoint E1.start_point
                 (Pt2.sub E1.end_point E1.start_point) E2.start_point
                 (Pt2.sub E2.end_point E2.start_point)) r).1,
             parameters := [r], referenced_elements := [e1, e2] }] },
       "Fillet_" ++ toString (s.elements.length + 1)) := by
  have hint : getElementIntersection s e1 e2 =
      some (lineIntersectionPoint E1.start_point
        (Pt2.sub E1.end_point E1.start_point) E2.start_point
        (Pt2.sub E2.end_point E2.start_point)) := by
    rw [getElementIntersection, h1, h2]
    simp [hL1, hL2, hdet]
  rw [Sketch.addFillet, h1, h2, hint]
  simp [hL1, hL2]

/-- C3: every successful `addFillet` on two non-parallel Line elements with
positive radius appends a Fillet element whose two stored tangent points lie
at distance exactly `radius` from the stored center, and each tangent point
lies on the infinite line carried by its source Line element (perpendicular
distance zero). -/
theorem addFillet_tangent_points (s : Sketch) (e1 e2 : String) (r : ℝ)
    (E1 E2 : SketchElement)
    (h1 : s.findElem e1 = some E1) (h2 : s.findElem e2 = some E2)
    (hL1 : E1.type = .LINE) (hL2 : E2.type = .LINE)
    (hdet : ¬ |Pt2.cross (Pt2.sub E1.end_point E1.start_point)
        (Pt2.sub E2.end_point E2.start_point)| < 1e-10)
    (hr : 0 < r) :
    ∃ c t1 t2 : Pt2,
      (s.addFillet e1 e2 r).2 ≠ "" ∧
      (s.addFillet e1 e2 r).1.elements = s.elements ++
        [{ type := .FILLET, id := (s.addFillet e1 e2 r).2, start_point := t1,
           end_point := t2, center_point := c, parameters := [r],
           referenced_elements := [e1, e2] }] ∧
      Pt2.norm (Pt2.sub t1 c) = r ∧ Pt2.norm (Pt2.sub t2 c) = r ∧
      perpDistToLine t1 E1.start_point E1.end_point = 0 ∧
      perpDistToLine t2 E2.start_point E2.end_point = 0 := by
  have hred := addFillet_success s e1 e2 r E1 E2 h1 h2 hL1 hL2 hdet
  have hcr : Pt2.cross (Pt2.sub E1.end_point E1.start_point)
      (Pt2.sub E2.end_point E2.start_point) ≠ 0 := by
    intro h
    apply hdet
    rw [h]
    norm_num
  obtain ⟨hq1, hq2, hp1, hp2⟩ := filletGeometry_tangency E1.start_point
    E1.end_point E2.start_point E2.end_point r hcr hr
  refine ⟨_, _, _, ?_, ?_, hq1, hq2, hp1, hp2⟩
  · rw [hred]
    exact generated_id_ne_empty "Fillet_" _ (by decide)
  · rw [hred]

/-- C3 witness: the spec's end-to-end corner — lines `(0,0)-(10,0)` and
`(10,0)-(10,10)` with radius `2`. -/
theorem addFillet_tangent_points_witness :
    ∃ c t1 t2 : Pt2,
      (sketchCorner.addFillet "Line_1" "Line_2" 2).2 ≠ "" ∧
      (sketchCorner.addFillet "Line_1" "Line_2" 2).1.elements =
        sketchCorner.elements ++
        [{ type := .FILLET, id := (sketchCorner.addFillet "Line_1" "Line_2" 2).2,
           start_point := t1, end_point := t2, center_point := c,
           parameters := [2], referenced_elements := ["Line_1", "Line_2"] }] ∧
      Pt2.norm (Pt2.sub t1 c) = 2 ∧ Pt2.norm (Pt2.sub t2 c) = 2 ∧
      perpDistToLine t1 ⟨0, 0⟩ ⟨10, 0⟩ = 0 ∧
      perpDistToLine t2 ⟨10, 0⟩ ⟨10, 10⟩ = 0 :=
  addFillet_tangent_points sketchCorner "Line_1" "Line_2" 2
    { type := .LINE, id := "Line_1", start_point := ⟨0, 0⟩,
      end_point := ⟨10, 0⟩ }
    { type := .LINE, id := "Line_2", start_point := ⟨10, 0⟩,
      end_point := ⟨10, 10⟩ }
    rfl rfl rfl rfl
    (by norm_num [Pt2.cross, Pt2.sub]) (by norm_num)

/-- `findKV` after `insertKV` at the same key returns the new value. -/
theorem findKV_insertKV_self {α : Type} (m : List (String × α)) (k : String)
    (v : α) : findKV (insertKV m k v) k = some v := by
  induction m with
  | nil => simp [insertKV, findKV]
  | cons p rest ih =>
      by_cases h : p.1 = k
      · simp [insertKV, h, findKV]
      · simp [insertKV, h, findKV, ih]

/-- The push-loop of `createWire` is the filter of the processed prefix. -/
theorem foldl_push_filter (p : SketchElement → Prop) [DecidablePred p]
    (es : List SketchElement) (acc : List SketchElement) :
    es.foldl (fun acc e => if p e then acc ++ [e] else acc) acc =
      acc ++ es.filter (fun e => decide (p e)) := by
  induction es generalizing acc with
  | nil => simp
  | cons e rest ih =>
      by_cases h : p e <;> simp [List.foldl, h, ih, List.filter]

/-! ### Claim theorems -/

/-- C1: the claim states that a Symmetric extrude applies a total sweep vector
whose displacement along the resolved direction equals `distance1 +
distance2`.  The code instead sums `direction*distance1` and
`direction*(-distance2)` into the single prism sweep
`direction*(distance1 - distance2)`; at the failing input `distance1 =
distance2 = 5` with the XY plane normal `(0,0,1)` the applied sweep vector is
zero and the displacement along the normal is `0`, not `5 + 5`. -/
theorem symmetric_sweep_is_difference_not_sum :
    (∀ (n : Vec3) (d1 d2 : ℝ),
        ExtrudeFeature.symmetricTotalVector n d1 d2 = Vec3.smul (d1 - d2) n) ∧
    ExtrudeFeature.symmetricTotalVector ⟨0, 0, 1⟩ 5 5 = ⟨0, 0, 0⟩ ∧
    Vec3.dot (ExtrudeFeature.symmetricTotalVector ⟨0, 0, 1⟩ 5 5) ⟨0, 0, 1⟩ = 0 ∧
    (5 + 5 : ℝ) ≠ 0 := by
  refine ⟨fun n d1 d2 => ?_, ?_, ?_, by norm_num⟩
  · simp only [ExtrudeFeature.symmetricTotalVector, Vec3.smul, Vec3.add,
      Vec3.mk.injEq]
    refine ⟨by ring, by ring, by ring⟩
  · simp only [ExtrudeFeature.symmetricTotalVector, Vec3.smul, Vec3.add,
      Vec3.mk.injEq]
    norm_num
  · simp only [ExtrudeFeature.symmetricTotalVector, Vec3.smul, Vec3.add,
      Vec3.dot]
    ring

/-- C2 counterexample: a feature with a base sketch on the XY plane and an
explicitly supplied non-degenerate direction parameter `(1,0,0)` (magnitude
`1`, far above the `1e-6` epsilon) still resolves its extrude direction to the
plane normal `(0,0,1)`, not to the supplied parameter: the code never reads
`parameters_.direction` when resolving the direction. -/
theorem direction_parameter_not_preferred :
    ExtrudeFeature.calculateExtrudeDirection featDirX = ⟨0, 0, 1⟩ ∧
    featDirX.parameters_.direction = ⟨1, 0, 0⟩ ∧
    Vec3.norm featDirX.parameters_.direction = 1 ∧ (1e-6 : ℝ) ≤ 1 ∧
    ExtrudeFeature.calculateExtrudeDirection featDirX ≠
      featDirX.parameters_.direction := by
  refine ⟨rfl, rfl, ?_, by norm_num, ?_⟩
  · show Vec3.norm ⟨1, 0, 0⟩ = 1
    simp only [Vec3.norm, Vec3.dot]
    norm_num
  · show (⟨0, 0, 1⟩ : Vec3) ≠ ⟨1, 0, 0⟩
    simp only [ne_eq, Vec3.mk.injEq]
    norm_num

/-- C2 amended: the resolved extrude direction is always the base sketch's
plane normal when a base sketch exists (else the stored plane's normal, else
`(0,0,1)`); the supplied direction parameter is ignored by direction
resolution — replacing it changes nothing. -/
theorem direction_resolution_ignores_parameter (Face Shape : Type)
    (f : ExtrudeFeature Face Shape) (sk : Sketch) (d' : Vec3)
    (h : f.base_sketch_ = some sk) :
    ExtrudeFeature.calculateExtrudeDirection (f.setDirection d') =
      sk.planeNormal ∧
    ExtrudeFeature.calculateExtrudeDirection f = sk.planeNormal := by
  constructor <;>
    simp [ExtrudeFeature.calculateExtrudeDirection, ExtrudeFeature.setDirection,
      h]

/-- C2 amended, witness at a concrete feature. -/
theorem direction_resolution_ignores_parameter_witness :
    ExtrudeFeature.calculateExtrudeDirection (featDirX.setDirection ⟨2, 0, 0⟩) =
      sketchXY.planeNormal ∧
    ExtrudeFeature.calculateExtrudeDirection featDirX = sketchXY.planeNormal :=
  direction_resolution_ignores_parameter Unit Unit featDirX sketchXY ⟨2, 0, 0⟩
    rfl

/-- C4 counterexample: a sketch holding two lines and a fillet referencing
both.  The wire assembly order contains ONLY the fillet arc: the full original
lines referenced by the fillet are NOT inserted (they are dropped from the
wire entirely), contradicting the claim that they are inserted untrimmed. -/
theorem fillet_wire_drops_referenced_lines :
    filletedElems.map (fun e => e.id) = ["Line_1", "Line_2", "Fillet_3"] ∧
    (Sketch.wireElementsOrder filletedElems).map (fun e => e.id) =
      ["Fillet_3"] ∧
    "Line_1" ∉ (Sketch.wireElementsOrder filletedElems).map (fun e => e.id) ∧
    "Line_1" ∈ Sketch.referencedByFillets filletedElems := by
  refine ⟨?_, ?_, ?_, ?_⟩ <;> decide

/-- C4 amended: when a sketch contains at least one Fillet element, the wire
is assembled from the elements that are neither fillets nor referenced by any
fillet, in original insertion order, followed by the fillet arcs in original
order; elements referenced by a fillet are OMITTED from the wire entirely
(neither trimmed nor inserted in full). -/
theorem wire_order_with_fillets (es : List SketchElement)
    (h : es.any (fun e => e.type = .FILLET) = true) :
    Sketch.wireElementsOrder es =
      es.filter (fun e => decide (e.type ≠ .FILLET ∧
        e.id ∉ Sketch.referencedByFillets es)) ++
      es.filter (fun e => decide (e.type = .FILLET)) ∧
    ∀ e ∈ es, e.type ≠ .FILLET → e.id ∈ Sketch.referencedByFillets es →
      e ∉ Sketch.wireElementsOrder es := by
  have hchar : Sketch.wireElementsOrder es =
      es.filter (fun e => decide (e.type ≠ .FILLET ∧
        e.id ∉ Sketch.referencedByFillets es)) ++
      es.filter (fun e => decide (e.type = .FILLET)) := by
    rw [Sketch.wireElementsOrder, if_pos h, foldl_push_filter,
      foldl_push_filter]
    simp
  refine ⟨hchar, ?_⟩
  intro e he hnf href
  rw [hchar]
  simp only [List.mem_append, List.mem_filter, decide_eq_true_eq, not_or]
  constructor
  · rintro ⟨-, -, habs⟩
    exact habs href
  · rintro ⟨-, habs⟩
    exact hnf habs

/-- C4 amended, witness at the concrete filleted sketch. -/
theorem wire_order_with_fillets_witness :
    Sketch.wireElementsOrder filletedElems =
      filletedElems.filter (fun e => decide (e.type ≠ .FILLET ∧
        e.id ∉ Sketch.referencedByFillets filletedElems)) ++
      filletedElems.filter (fun e => decide (e.type = .FILLET)) ∧
    ∀ e ∈ filletedElems, e.type ≠ .FILLET →
      e.id ∈ Sketch.referencedByFillets filletedElems →
      e ∉ Sketch.wireElementsOrder filletedElems :=
  wire_order_with_fillets filletedElems (by decide)

/-- C5: `addFillet` fails (empty identifier, sketch unchanged) exactly when a
referenced element is missing, or the intersection computation reports
nothing, or the pair is not a Line-Line combination; and for a found
Line-Line pair the intersection reports nothing exactly when the determinant
magnitude is below the `1e-10` epsilon (parallel lines). -/
theorem addFillet_failure_conditions (s : Sketch) (e1 e2 : String) (r : ℝ) :
    ((s.addFillet e1 e2 r).2 = "" ↔
      s.findElem e1 = none ∨ s.findElem e2 = none ∨
      getElementIntersection s e1 e2 = none ∨
      ¬ ∃ E1 E2, s.findElem e1 = some E1 ∧ s.findElem e2 = some E2 ∧
          E1.type = .LINE ∧ E2.type = .LINE) ∧
    ((s.addFillet e1 e2 r).2 = "" → (s.addFillet e1 e2 r).1 = s) ∧
    (∀ E1 E2, s.findElem e1 = some E1 → s.findElem e2 = some E2 →
      E1.type = .LINE → E2.type = .LINE →
      (getElementIntersection s e1 e2 = none ↔
        |Pt2.cross (Pt2.sub E1.end_point E1.start_point)
          (Pt2.sub E2.end_point E2.start_point)| < 1e-10)) := by
  refine ⟨?_, ?_, ?_⟩
  · rcases hf1 : s.findElem e1 with _ | E1
    · have hred : s.addFillet e1 e2 r = (s, "") := by
        rw [Sketch.addFillet, hf1]
      rw [hred]
      simp
    rcases hf2 : s.findElem e2 with _ | E2
    · have hred : s.addFillet e1 e2 r = (s, "") := by
        rw [Sketch.addFillet, hf1, hf2]
      rw [hred]
      simp
    rcases hint : getElementIntersection s e1 e2 with _ | I
    · have hred : s.addFillet e1 e2 r = (s, "") := by
        rw [Sketch.addFillet, hf1, hf2, hint]
      rw [hred]
      simp
    by_cases hty : E1.type = .LINE ∧ E2.type = .LINE
    · have hsnd : (s.addFillet e1 e2 r).2 =
          "Fillet_" ++ toString (s.elements.length + 1) := by
        rw [Sketch.addFillet, hf1, hf2, hint]
        simp [hty]
      refine iff_of_false ?_ ?_
      · rw [hsnd]
        exact generated_id_ne_empty "Fillet_" _ (by decide)
      · rintro (h | h | h | h)
        · exact Option.noConfusion h
        · exact Option.noConfusion h
        · exact Option.noConfusion h
        · exact h ⟨E1, E2, rfl, rfl, hty.1, hty.2⟩
    · have hred : s.addFillet e1 e2 r = (s, "") := by
        rw [Sketch.addFillet, hf1, hf2, hint]
        simp [hty]
      refine iff_of_true (by rw [hred]) (Or.inr (Or.inr (Or.inr ?_)))
      rintro ⟨E1', E2', h1', h2', hL1, hL2⟩
      injection h1' with hE1
      injection h2' with hE2
      subst hE1
      subst hE2
      exact hty ⟨hL1, hL2⟩
  · rcases hf1 : s.findElem e1 with _ | E1
    · have hred : s.addFillet e1 e2 r = (s, "") := by
        rw [Sketch.addFillet, hf1]
      rw [hred]
      intro
      rfl
    rcases hf2 : s.findElem e2 with _ | E2
    · have hred : s.addFillet e1 e2 r = (s, "") := by
        rw [Sketch.addFillet, hf1, hf2]
      rw [hred]
      intro
      rfl
    rcases hint : getElementIntersection s e1 e2 with _ | I
    · have hred : s.addFillet e1 e2 r = (s, "") := by
        rw [Sketch.addFillet, hf1, hf2, hint]
      rw [hred]
      intro
      rfl
    by_cases hty : E1.type = .LINE ∧ E2.type = .LINE
    · have hsnd : (s.addFillet e1 e2 r).2 =
          "Fillet_" ++ toString (s.elements.length + 1) := by
        rw [Sketch.addFillet, hf1, hf2, hint]
        simp [hty]
      intro habs
      rw [hsnd] at habs
      exact absurd habs (generated_id_ne_empty "Fillet_" _ (by decide))
    · have hred : s.addFillet e1 e2 r = (s, "") := by
        rw [Sketch.addFillet, hf1, hf2, hint]
        simp [hty]
      rw [hred]
      intro
      rfl
  · intro E1 E2 h1 h2 hL1 hL2
    have hrw : getElementIntersection s e1 e2 =
        if |Pt2.cross (Pt2.sub E1.end_point E1.start_point)
            (Pt2.sub E2.end_point E2.start_point)| < 1e-10 then none
        else some (lineIntersectionPoint E1.start_point
          (Pt2.sub E1.end_point E1.start_point) E2.start_point
          (Pt2.sub E2.end_point E2.start_point)) := by
      rw [getElementIntersection, h1, h2]
      simp [hL1, hL2]
    rw [hrw]
    by_cases hd : |Pt2.cross (Pt2.sub E1.end_point E1.start_point)
        (Pt2.sub E2.end_point E2.start_point)| < 1e-10 <;> simp [hd]

/-- C5 witness: a fillet between two parallel lines fails with a "no
intersection" condition and leaves the sketch unchanged. -/
theorem addFillet_failure_conditions_witness :
    getElementIntersection sketchParallel "Line_1" "Line_2" = none ∧
    (sketchParallel.addFillet "Line_1" "Line_2" 2).2 = "" := by
  have hint : getElementIntersection sketchParallel "Line_1" "Line_2" = none := by
    have hrw := (addFillet_failure_conditions sketchParallel "Line_1" "Line_2"
        2).2.2
      { type := .LINE, id := "Line_1", start_point := ⟨0, 0⟩,
        end_point := ⟨1, 0⟩ }
      { type := .LINE, id := "Line_2", start_point := ⟨0, 1⟩,
        end_point := ⟨1, 1⟩ }
      rfl rfl rfl rfl
    rw [hrw]
    norm_num [Pt2.cross, Pt2.sub]
  exact ⟨hint,
    (addFillet_failure_conditions sketchParallel "Line_1" "Line_2" 2).1.mpr
      (Or.inr (Or.inr (Or.inl hint)))⟩

/-- C6: the claim states element identifiers stay pairwise distinct under
authoring and removal.  At the failing input — `addLine`, `addLine`,
`removeElement "Line_1"`, `addLine` on an empty sketch — identifier generation
(`"Line_" + (elements_.size()+1)`) reuses `"Line_2"`, leaving two elements
with the same id. -/
theorem element_ids_collide_after_remove :
    sketchReuse.elements.map (fun e => e.id) = ["Line_2", "Line_2"] ∧
    ¬ (sketchReuse.elements.map (fun e => e.id)).Nodup := by
  constructor <;> decide

/-- C7 counterexample: two successive `createSketchPlane` calls with the same
canonical type `"XY"` both return the identifier `"XY_Plane"` — plane
identifiers are fixed per type, so they are not distinct and the claimed
session-wide uniqueness of issued identifiers fails. -/
theorem plane_ids_not_distinct :
    (engine0.createSketchPlane "XY" ⟨0, 0, 0⟩).2 = "XY_Plane" ∧
    ((engine0.createSketchPlane "XY" ⟨0, 0, 0⟩).1.createSketchPlane "XY"
        ⟨0, 0, 0⟩).2 = "XY_Plane" ∧
    ¬ ((engine0.createSketchPlane "XY" ⟨0, 0, 0⟩).2 ≠
        ((engine0.createSketchPlane "XY" ⟨0, 0, 0⟩).1.createSketchPlane "XY"
          ⟨0, 0, 0⟩).2) :=
  ⟨rfl, rfl, fun h => h rfl⟩

/-- C7 amended: for each canonical type, `createSketchPlane` always returns
that type's fixed identifier; a repeated call with the same type returns the
SAME identifier and overwrites the registry entry (the second origin wins),
rather than issuing a fresh one. -/
theorem plane_id_fixed_per_type (Face Shape : Type) (E : Engine Face Shape)
    (o o' : Vec3) :
    ((Engine.createSketchPlane E "XY" o).2 = "XY_Plane" ∧
     ((Engine.createSketchPlane E "XY" o).1.createSketchPlane "XY" o').2 =
       "XY_Plane" ∧
     findKV ((Engine.createSketchPlane E "XY" o).1.createSketchPlane "XY"
         o').1.sketch_planes "XY_Plane" =
       some ⟨.XY, o', ⟨0, 0, 1⟩, "XY_Plane"⟩) ∧
    ((Engine.createSketchPlane E "XZ" o).2 = "XZ_Plane" ∧
     ((Engine.createSketchPlane E "XZ" o).1.createSketchPlane "XZ" o').2 =
       "XZ_Plane") ∧
    ((Engine.createSketchPlane E "YZ" o).2 = "YZ_Plane" ∧
     ((Engine.createSketchPlane E "YZ" o).1.createSketchPlane "YZ" o').2 =
       "YZ_Plane") := by
  refine ⟨⟨rfl, rfl, ?_⟩, ⟨rfl, rfl⟩, ⟨rfl, rfl⟩⟩
  simp [Engine.createSketchPlane, mkCanonicalPlane, findKV_insertKV_self]

/-- Faithfulness of the canonical frames: the Y direction stored for each
canonical plane type is the OCCT-derived cross product `normal × xdir`. -/
theorem frame_ydir_eq_cross (t : PlaneType) (o : Vec3) (f : Frame)
    (hf : canonicalFrame t o = some f) :
    f.ydir = Vec3.cross f.normal f.xdir := by
  cases t with
  | CUSTOM => exact Option.noConfusion hf
  | XY =>
      injection hf with h
      subst h
      ext <;> norm_num [Vec3.cross]
  | XZ =>
      injection hf with h
      subst h
      ext <;> norm_num [Vec3.cross]
  | YZ =>
      injection hf with h
      subst h
      ext <;> norm_num [Vec3.cross]

/-- C8: for every plane built from a valid (canonical) plane type,
`to2D (to3D q) = q` for every 2D point `q`, and `to3D (to2D p) = p` for every
3D point `p` on the plane (exact real arithmetic). -/
theorem plane_roundtrip (t : PlaneType) (o : Vec3) (f : Frame) (q : Pt2)
    (p : Vec3) (hf : canonicalFrame t o = some f) (hp : f.onPlane p) :
    f.to2D (f.to3D q) = q ∧ f.to3D (f.to2D p) = p := by
  obtain ⟨u, v, rfl⟩ := hp
  cases t with
  | CUSTOM => exact Option.noConfusion hf
  | XY =>
      injection hf with h
      subst h
      constructor <;>
        (ext <;>
          simp [Frame.to2D, Frame.to3D, Vec3.add, Vec3.smul, Vec3.sub,
            Vec3.dot])
  | XZ =>
      injection hf with h
      subst h
      constructor <;>
        (ext <;>
          simp [Frame.to2D, Frame.to3D, Vec3.add, Vec3.smul, Vec3.sub,
            Vec3.dot])
  | YZ =>
      injection hf with h
      subst h
      constructor <;>
        (ext <;>
          simp [Frame.to2D, Frame.to3D, Vec3.add, Vec3.smul, Vec3.sub,
            Vec3.dot])

/-- C8 witness: the XY frame at origin `(1,2,3)`, the 2D point `(3,4)` and
the on-plane 3D point `to3D (2,5)`. -/
theorem plane_roundtrip_witness :
    Frame.to2D ⟨⟨1, 2, 3⟩, ⟨1, 0, 0⟩, ⟨0, 1, 0⟩, ⟨0, 0, 1⟩⟩
        (Frame.to3D ⟨⟨1, 2, 3⟩, ⟨1, 0, 0⟩, ⟨0, 1, 0⟩, ⟨0, 0, 1⟩⟩ ⟨3, 4⟩) =
      ⟨3, 4⟩ ∧
    Frame.to3D ⟨⟨1, 2, 3⟩, ⟨1, 0, 0⟩, ⟨0, 1, 0⟩, ⟨0, 0, 1⟩⟩
        (Frame.to2D ⟨⟨1, 2, 3⟩, ⟨1, 0, 0⟩, ⟨0, 1, 0⟩, ⟨0, 0, 1⟩⟩
          (Frame.to3D ⟨⟨1, 2, 3⟩, ⟨1, 0, 0⟩, ⟨0, 1, 0⟩, ⟨0, 0, 1⟩⟩ ⟨2, 5⟩)) =
      Frame.to3D ⟨⟨1, 2, 3⟩, ⟨1, 0, 0⟩, ⟨0, 1, 0⟩, ⟨0, 0, 1⟩⟩ ⟨2, 5⟩ :=
  plane_roundtrip .XY ⟨1, 2, 3⟩ _ ⟨3, 4⟩ _ rfl ⟨2, 5, rfl⟩

/-- C9 counterexample: on a NONEMPTY, kernel-valid base sketch (one circle)
with a negative distance, `execute` with type ThroughAll does NOT produce the
same outcome as with type Blind: Blind fails its positive-distance
validation, while ThroughAll skips that check (`distance <= 0 && type ==
BLIND` is false), passes validation, proceeds with the fallback blind sweep
and (with a kernel for which wire analysis and the prism succeed) returns
`true`. -/
theorem throughall_not_equivalent_to_blind :
    ExtrudeFeature.getValidationErrors okKernel (featNegDist.setType .BLIND) =
      ["Extrude distance must be positive"] ∧
    ExtrudeFeature.getValidationErrors okKernel
      (featNegDist.setType .THROUGH_ALL) = [] ∧
    (ExtrudeFeature.execute okKernel (featNegDist.setType .THROUGH_ALL)).2 =
      true ∧
    (ExtrudeFeature.execute okKernel (featNegDist.setType .BLIND)).2 =
      false := by
  have hnorm : Vec3.norm ⟨0, 0, 1⟩ = 1 := by
    simp [Vec3.norm, Vec3.dot]
  have hblind : ExtrudeFeature.getValidationErrors okKernel
      (featNegDist.setType .BLIND) = ["Extrude distance must be positive"] := by
    simp [ExtrudeFeature.getValidationErrors, ExtrudeFeature.setType,
      featNegDist, okKernel, sketchIsValid, sketchValidationErrors,
      sketchCircle, hnorm]
    norm_num
  have hta : ExtrudeFeature.getValidationErrors okKernel
      (featNegDist.setType .THROUGH_ALL) = [] := by
    simp [ExtrudeFeature.getValidationErrors, ExtrudeFeature.setType,
      featNegDist, okKernel, sketchIsValid, sketchValidationErrors,
      sketchCircle, hnorm]
    norm_num
  refine ⟨hblind, hta, ?_, ?_⟩
  · rw [ExtrudeFeature.execute, if_neg (by rw [hta]; simp)]
    simp [ExtrudeFeature.setType, featNegDist,
      ExtrudeFeature.performBlindExtrude, ExtrudeFeature.resolveFace, okKernel]
  · rw [ExtrudeFeature.execute, if_pos (by rw [hblind]; simp)]

/-- C9 amended, shared reduction: for a positive distance, execute with
ThroughAll or ToSurface yields the same validation result, resulting shape,
validity flag and return value as execute with Blind. -/
theorem execute_components_eq_blind (Face Shape : Type) (K : Kernel Face Shape)
    (f : ExtrudeFeature Face Shape) (t : ExtrudeType)
    (ht : t = .THROUGH_ALL ∨ t = .TO_SURFACE)
    (h : 0 < f.parameters_.distance) :
    ExtrudeFeature.getValidationErrors K (f.setType t) =
      ExtrudeFeature.getValidationErrors K (f.setType .BLIND) ∧
    (ExtrudeFeature.execute K (f.setType t)).1.result_shape_ =
      (ExtrudeFeature.execute K (f.setType .BLIND)).1.result_shape_ ∧
    (ExtrudeFeature.execute K (f.setType t)).1.is_valid_ =
      (ExtrudeFeature.execute K (f.setType .BLIND)).1.is_valid_ ∧
    (ExtrudeFeature.execute K (f.setType t)).2 =
      (ExtrudeFeature.execute K (f.setType .BLIND)).2 := by
  have hnle : ¬ f.parameters_.distance ≤ 0 := not_le.mpr h
  have hval : ExtrudeFeature.getValidationErrors K (f.setType t) =
      ExtrudeFeature.getValidationErrors K (f.setType .BLIND) := by
    rcases ht with rfl | rfl <;>
      (rcases hb : f.base_sketch_ with _ | sk <;>
        rcases hfc : f.face_to_extrude_ with _ | fc <;>
        simp [ExtrudeFeature.getValidationErrors, ExtrudeFeature.setType, hb,
          hfc, hnle])
  have hperform : ExtrudeFeature.performBlindExtrude K (f.setType t) =
      ExtrudeFeature.performBlindExtrude K (f.setType .BLIND) := rfl
  refine ⟨hval, ?_⟩
  by_cases hcan : ExtrudeFeature.getValidationErrors K (f.setType .BLIND) = []
  · have harm : (match (f.setType t).parameters_.type with
        | ExtrudeType.BLIND => ExtrudeFeature.performBlindExtrude K (f.setType t)
        | ExtrudeType.SYMMETRIC =>
            ExtrudeFeature.performSymmetricExtrude K (f.setType t)
        | ExtrudeType.THROUGH_ALL =>
            ExtrudeFeature.performBlindExtrude K (f.setType t)
        | ExtrudeType.TO_SURFACE =>
            ExtrudeFeature.performBlindExtrude K (f.setType t)) =
        ExtrudeFeature.performBlindExtrude K (f.setType .BLIND) := by
      rcases ht with rfl | rfl <;> rfl
    rw [ExtrudeFeature.execute, ExtrudeFeature.execute,
      if_neg (by rw [hval, hcan]; simp), if_neg (by rw [hcan]; simp)]
    rw [harm]
    rcases hres : ExtrudeFeature.performBlindExtrude K (f.setType .BLIND)
      with _ | sh <;> simp [ExtrudeFeature.setType]
  · rw [ExtrudeFeature.execute, ExtrudeFeature.execute,
      if_pos (by rw [hval]; exact hcan), if_pos hcan]
    simp [ExtrudeFeature.setType]

/-- C9 amended: provided the distance parameter is positive (so that Blind
validation passes the distance check), executing with ThroughAll or ToSurface
produces exactly the same validation result, resulting shape, validity flag
and return value as executing with Blind — both fall back to the blind sweep;
with a non-positive distance the outcomes differ (see the counterexample). -/
theorem fallback_types_execute_as_blind (Face Shape : Type)
    (K : Kernel Face Shape) (f : ExtrudeFeature Face Shape)
    (h : 0 < f.parameters_.distance) :
    (ExtrudeFeature.getValidationErrors K (f.setType .THROUGH_ALL) =
       ExtrudeFeature.getValidationErrors K (f.setType .BLIND) ∧
     (ExtrudeFeature.execute K (f.setType .THROUGH_ALL)).1.result_shape_ =
       (ExtrudeFeature.execute K (f.setType .BLIND)).1.result_shape_ ∧
     (ExtrudeFeature.execute K (f.setType .THROUGH_ALL)).1.is_valid_ =
       (ExtrudeFeature.execute K (f.setType .BLIND)).1.is_valid_ ∧
     (ExtrudeFeature.execute K (f.setType .THROUGH_ALL)).2 =
       (ExtrudeFeature.execute K (f.setType .BLIND)).2) ∧
    (ExtrudeFeature.getValidationErrors K (f.setType .TO_SURFACE) =
       ExtrudeFeature.getValidationErrors K (f.setType .BLIND) ∧
     (ExtrudeFeature.execute K (f.setType .TO_SURFACE)).1.result_shape_ =
       (ExtrudeFeature.execute K (f.setType .BLIND)).1.result_shape_ ∧
     (ExtrudeFeature.execute K (f.setType .TO_SURFACE)).1.is_valid_ =
       (ExtrudeFeature.execute K (f.setType .BLIND)).1.is_valid_ ∧
     (ExtrudeFeature.execute K (f.setType .TO_SURFACE)).2 =
       (ExtrudeFeature.execute K (f.setType .BLIND)).2) :=
  ⟨execute_components_eq_blind Face Shape K f .THROUGH_ALL (Or.inl rfl) h,
   execute_components_eq_blind Face Shape K f .TO_SURFACE (Or.inr rfl) h⟩

/-- C9 amended, witness at a concrete feature (nonempty circle sketch,
default positive distance 10). -/
theorem fallback_types_execute_as_blind_witness :
    (ExtrudeFeature.getValidationErrors okKernel (featCirclePos.setType .THROUGH_ALL) =
       ExtrudeFeature.getValidationErrors okKernel (featCirclePos.setType .BLIND) ∧
     (ExtrudeFeature.execute okKernel (featCirclePos.setType .THROUGH_ALL)).1.result_shape_ =
       (ExtrudeFeature.execute okKernel (featCirclePos.setType .BLIND)).1.result_shape_ ∧
     (ExtrudeFeature.execute okKernel (featCirclePos.setType .THROUGH_ALL)).1.is_valid_ =
       (ExtrudeFeature.execute okKernel (featCirclePos.setType .BLIND)).1.is_valid_ ∧
     (ExtrudeFeature.execute okKernel (featCirclePos.setType .THROUGH_ALL)).2 =
       (ExtrudeFeature.execute okKernel (featCirclePos.setType .BLIND)).2) ∧
    (ExtrudeFeature.getValidationErrors okKernel (featCirclePos.setType .TO_SURFACE) =
       ExtrudeFeature.getValidationErrors okKernel (featCirclePos.setType .BLIND) ∧
     (ExtrudeFeature.execute okKernel (featCirclePos.setType .TO_SURFACE)).1.result_shape_ =
       (ExtrudeFeature.execute okKernel (featCirclePos.setType .BLIND)).1.result_shape_ ∧
     (ExtrudeFeature.execute okKernel (featCirclePos.setType .TO_SURFACE)).1.is_valid_ =
       (ExtrudeFeature.execute okKernel (featCirclePos.setType .BLIND)).1.is_valid_ ∧
     (ExtrudeFeature.execute okKernel (featCirclePos.setType .TO_SURFACE)).2 =
       (ExtrudeFeature.execute okKernel (featCirclePos.setType .BLIND)).2) :=
  fallback_types_execute_as_blind Unit Unit okKernel featCirclePos
    (by norm_num [featCirclePos])

/-- C10: `extrudeSketch` and `extrudeSketchElement` accept a direction string
argument but never read it: any two calls differing only in that argument
return identical engine states and feature identifiers, for every kernel
oracle, session state, sketch, element and distance. -/
theorem extrude_independent_of_direction_string (Face Shape : Type)
    (K : Kernel Face Shape) (E : Engine Face Shape) (sid eid : String)
    (d : ℝ) (dir1 dir2 : String) (now : ℕ) :
    Engine.extrudeSketch K E sid d dir1 now =
      Engine.extrudeSketch K E sid d dir2 now ∧
    Engine.extrudeSketchElement K E sid eid d dir1 now =
      Engine.extrudeSketchElement K E sid eid d dir2 now :=
  ⟨rfl, rfl⟩

end Dimes
